import Mathlib

/-!
Verification of the GGUF splitter `split_gguf_proper.py`.

The Python source is shallowly embedded: a file is a list of byte values
(`Bytes`), a Python file object is modelled as the full byte list together
with an explicit cursor position, `f.read(k)` returns up to `k` bytes
(short at end of file, never an error), and `struct.unpack` fails with
`struct.error` when the buffer is shorter than the format width.  Python
exceptions are modelled with `Except`; each distinct `raise` site gets its
own `PyErr` constructor.  Signed integers, floats and booleans are stored
as their raw little-endian byte value: the program never computes with
decoded metadata values, so only the byte consumption matters and it is
identical.  `str.encode`/`bytes.decode` round-trip on the byte level and
are modelled as the identity on byte lists.
-/

set_option maxRecDepth 100000

namespace SplitGguf

/-- A byte sequence; each element is one byte value 0–255. -/
abbrev Bytes := List Nat

/-- Model of `f.read(k)` from absolute position `pos`: up to `k` bytes,
short at end of file, never an error. -/
def readBytes (s : Bytes) (pos k : Nat) : Bytes :=
  (s.drop pos).take k

/-- Little-endian unsigned value of a byte list. -/
def leNat : Bytes → Nat
  | [] => 0
  | b :: bs => b + 256 * leNat bs

/-- Model of `struct.pack` for one unsigned little-endian field of `w`
bytes; faithful for values below `2 ^ (8 * w)`, which covers every value
the writer packs for inputs of realistic size. -/
def packLE : Nat → Nat → Bytes
  | 0, _ => []
  | w + 1, v => v % 256 :: packLE w (v / 256)

/-- One constructor per distinct failure site of the Python source. -/
inductive PyErr where
  /-- `struct.error`: `struct.unpack` on a buffer shorter than the format width. -/
  | structError
  /-- `read_string` line 22: unexpected end of file while reading the string length. -/
  | eofStringLength
  /-- `read_string` line 26: declared string length above the 1 MB bound. -/
  | stringTooLarge
  /-- `read_string` line 29: fewer payload bytes than declared. -/
  | eofStringData
  /-- `read_metadata` line 41: more than 10000 metadata entries. -/
  | tooManyMeta
  /-- lines 70 and 192: array length above the 1000000 bound. -/
  | arrayTooLarge
  /-- `ZeroDivisionError` from `num_tensors // num_shards` with zero shards. -/
  | zeroDivision
deriving DecidableEq, Repr

/-- `struct.unpack` of one unsigned little-endian field of `width` bytes
read at `pos`; returns the value and the new cursor position. -/
def unpackLE (s : Bytes) (pos width : Nat) : Except PyErr (Nat × Nat) :=
  let bs := readBytes s pos width
  if bs.length = width then .ok (leNat bs, pos + width) else .error .structError

/-- `GGUF_MAGIC = b'GGUF'` (line 15). -/
def GGUF_MAGIC : Bytes := [71, 71, 85, 70]

/-- `GGUF_VERSION = 3` (line 16); the source declares it but never compares
the version it reads against it. -/
def GGUF_VERSION : Nat := 3

/-- `read_string` (lines 18–30): 8-byte length, 1 MB bound, then payload. -/
def read_string (s : Bytes) (pos : Nat) : Except PyErr (Bytes × Nat) :=
  let length_bytes := readBytes s pos 8
  if length_bytes.length < 8 then .error .eofStringLength
  else
    let length := leNat length_bytes
    if 1024 * 1024 < length then .error .stringTooLarge
    else
      let data := readBytes s (pos + 8) length
      if data.length < length then .error .eofStringData
      else .ok (data, pos + 8 + length)

/-- A decoded metadata value.  Scalar constructors keep the raw unsigned
little-endian value of the consumed bytes (see the header comment). -/
inductive MetaVal where
  | u8 (raw : Nat)
  | i8 (raw : Nat)
  | u16 (raw : Nat)
  | i16 (raw : Nat)
  | u32 (raw : Nat)
  | i32 (raw : Nat)
  | f32 (raw : Nat)
  | boolv (raw : Nat)
  | str (v : Bytes)
  | arr (elemType : Nat) (elems : List MetaVal)

/-- Array-element loop of the metadata decoder inlined in `split_gguf`
(lines 194–204).  Unknown element tags take the final branch: `f.read(4)`,
which consumes up to four bytes, never fails, and appends no element. -/
def readArrayElems (s : Bytes) (array_type : Nat) : Nat → Nat → Except PyErr (List MetaVal × Nat)
  | 0, pos => .ok ([], pos)
  | n + 1, pos => do
    if array_type = 8 then
      let (v, pos) ← read_string s pos
      let (rest, pos) ← readArrayElems s array_type n pos
      .ok (.str v :: rest, pos)
    else if array_type = 4 then
      let (v, pos) ← unpackLE s pos 4
      let (rest, pos) ← readArrayElems s array_type n pos
      .ok (.u32 v :: rest, pos)
    else if array_type = 5 then
      let (v, pos) ← unpackLE s pos 4
      let (rest, pos) ← readArrayElems s array_type n pos
      .ok (.i32 v :: rest, pos)
    else if array_type = 6 then
      let (v, pos) ← unpackLE s pos 4
      let (rest, pos) ← readArrayElems s array_type n pos
      .ok (.f32 v :: rest, pos)
    else
      readArrayElems s array_type n (pos + (readBytes s pos 4).length)

/-- One metadata value as decoded inline in `split_gguf` (lines 170–211),
dispatching on `value_type`.  Returns `none` for an unknown top-level tag:
that branch is `try: f.read(4) except: pass` followed by `continue`
(lines 205–211), so up to four bytes are consumed, nothing can fail, and
no entry is stored. -/
def parseValueInline (s : Bytes) (pos : Nat) (value_type : Nat) : Except PyErr (Option MetaVal × Nat) := do
  if value_type = 8 then
    let (v, pos) ← read_string s pos
    .ok (some (.str v), pos)
  else if value_type = 0 then
    let (v, pos) ← unpackLE s pos 1
    .ok (some (.u8 v), pos)
  else if value_type = 1 then
    let (v, pos) ← unpackLE s pos 1
    .ok (some (.i8 v), pos)
  else if value_type = 2 then
    let (v, pos) ← unpackLE s pos 2
    .ok (some (.u16 v), pos)
  else if value_type = 3 then
    let (v, pos) ← unpackLE s pos 2
    .ok (some (.i16 v), pos)
  else if value_type = 4 then
    let (v, pos) ← unpackLE s pos 4
    .ok (some (.u32 v), pos)
  else if value_type = 5 then
    let (v, pos) ← unpackLE s pos 4
    .ok (some (.i32 v), pos)
  else if value_type = 6 then
    let (v, pos) ← unpackLE s pos 4
    .ok (some (.f32 v), pos)
  else if value_type = 7 then
    let (v, pos) ← unpackLE s pos 1
    .ok (some (.boolv v), pos)
  else if value_type = 9 then
    let (array_type, pos) ← unpackLE s pos 4
    let (array_len, pos) ← unpackLE s pos 8
    if 1000000 < array_len then .error .arrayTooLarge
    else
      let (elems, pos) ← readArrayElems s array_type array_len pos
      .ok (some (.arr array_type elems), pos)
  else
    .ok (none, pos + (readBytes s pos 4).length)

/-- General-metadata loop of `split_gguf` (lines 164–213): key string, type
tag, one value; skipped unknown values store nothing.  The Python dict's
last-write-wins overwrite is not exercised by any claim, so entries are
kept as an ordered association list. -/
def parseGeneralMeta (s : Bytes) : Nat → Nat → Except PyErr (List (Bytes × MetaVal) × Nat)
  | 0, pos => .ok ([], pos)
  | n + 1, pos => do
    let (key, pos) ← read_string s pos
    let (value_type, pos) ← parseGeneralMetaStep s pos
    let (v, pos) ← parseValueInline s pos value_type
    let (rest, pos) ← parseGeneralMeta s n pos
    match v with
    | some value => .ok ((key, value) :: rest, pos)
    | none => .ok (rest, pos)
where
  /-- the `value_type = struct.unpack('<I', f.read(4))[0]` of each entry. -/
  parseGeneralMetaStep (s : Bytes) (pos : Nat) : Except PyErr (Nat × Nat) :=
    unpackLE s pos 4

/-- Element loop of the tensor-metadata skip (lines 233–239): strings are
re-read, everything else — known or unknown — takes a bare `f.read(4)`. -/
def skipArrayElems (s : Bytes) (array_type : Nat) : Nat → Nat → Except PyErr Nat
  | 0, pos => .ok pos
  | n + 1, pos => do
    if array_type = 8 then
      let (_, pos) ← read_string s pos
      skipArrayElems s array_type n pos
    else
      skipArrayElems s array_type n (pos + (readBytes s pos 4).length)

/-- Tensor-metadata skip loop of `split_gguf` (lines 219–239).  Note the
array branch reads its length with no upper bound, and a value type
outside every branch consumes nothing. -/
def skipTensorMeta (s : Bytes) : Nat → Nat → Except PyErr Nat
  | 0, pos => .ok pos
  | n + 1, pos => do
    let (_, pos) ← read_string s pos
    let (value_type, pos) ← unpackLE s pos 4
    if value_type = 8 then
      let (_, pos) ← read_string s pos
      skipTensorMeta s n pos
    else if value_type = 0 ∨ value_type = 1 ∨ value_type = 7 then
      skipTensorMeta s n (pos + (readBytes s pos 1).length)
    else if value_type = 2 ∨ value_type = 3 then
      skipTensorMeta s n (pos + (readBytes s pos 2).length)
    else if value_type = 4 ∨ value_type = 5 ∨ value_type = 6 then
      skipTensorMeta s n (pos + (readBytes s pos 4).length)
    else if value_type = 9 then
      let (array_type, pos) ← unpackLE s pos 4
      let (array_len, pos) ← unpackLE s pos 8
      let pos ← skipArrayElems s array_type array_len pos
      skipTensorMeta s n pos
    else
      skipTensorMeta s n pos

/-- `get_tensor_size` (lines 107–131): fixed element-size table with a
4-byte default, times the product of the dimensions. -/
def get_tensor_size (dims : List Nat) (tensor_type : Nat) : Nat :=
  let element_size :=
    if tensor_type = 0 then 1
    else if tensor_type = 1 then 2
    else if tensor_type = 2 then 4
    else if tensor_type = 3 then 4
    else if tensor_type = 6 then 4
    else if tensor_type = 7 then 4
    else if tensor_type = 8 then 4
    else if tensor_type = 9 then 1
    else if tensor_type = 10 then 1
    else if tensor_type = 11 then 1
    else if tensor_type = 12 then 1
    else if tensor_type = 13 then 1
    else if tensor_type = 14 then 1
    else 4
  (dims.foldl (fun a d => a * d) 1) * element_size

/-- One tensor descriptor with the estimated `size` filled in by
`get_tensor_size` immediately after parsing (line 249). -/
structure TensorInfo where
  name : Bytes
  dims : List Nat
  type : Nat
  offset : Nat
  size : Nat
deriving DecidableEq, Repr

/-- The `dims` loop of `read_tensor_info` (line 96). -/
def readDims (s : Bytes) : Nat → Nat → Except PyErr (List Nat × Nat)
  | 0, pos => .ok ([], pos)
  | n + 1, pos => do
    let (d, pos) ← unpackLE s pos 8
    let (rest, pos) ← readDims s n pos
    .ok (d :: rest, pos)

/-- `read_tensor_info` (lines 92–105): name, rank, dims, type tag, offset. -/
def read_tensor_info (s : Bytes) (pos : Nat) : Except PyErr ((Bytes × List Nat × Nat × Nat) × Nat) := do
  let (name, pos) ← read_string s pos
  let (n_dims, pos) ← unpackLE s pos 4
  let (dims, pos) ← readDims s n_dims pos
  let (tensor_type, pos) ← unpackLE s pos 4
  let (offset, pos) ← unpackLE s pos 8
  .ok ((name, dims, tensor_type, offset), pos)

/-- Tensor-descriptor loop of `split_gguf` (lines 246–250); each parsed
descriptor gets its estimated byte size attached at once.  When it
returns `.ok`, the list has exactly the declared number of entries. -/
def readTensorInfos (s : Bytes) : Nat → Nat → Except PyErr (List TensorInfo × Nat)
  | 0, pos => .ok ([], pos)
  | n + 1, pos => do
    let ((name, dims, tensor_type, offset), pos) ← read_tensor_info s pos
    let (rest, pos) ← readTensorInfos s n pos
    .ok (⟨name, dims, tensor_type, offset, get_tensor_size dims tensor_type⟩ :: rest, pos)

/-- Everything the read half of `split_gguf` produces. -/
structure ReadResult where
  version : Nat
  metadata : List (Bytes × MetaVal)
  tensors : List TensorInfo
  file_size : Nat
  data_start : Nat

/-- The read half of `split_gguf` (lines 144–262): header, general
metadata, tensor-metadata skip, tensor descriptors.  `.ok none` models the
`return False` taken on a magic mismatch (lines 146–148); note there is no
check of any kind on the version value.  `data_start` is assigned from
`f.tell()` only AFTER `f.seek(0, 2)` (lines 258–262), so it equals the
file size, not the position after the descriptor block. -/
def containerRead (s : Bytes) : Except PyErr (Option ReadResult) := do
  let magic := readBytes s 0 4
  if magic ≠ GGUF_MAGIC then .ok none
  else
    let (version, pos) ← unpackLE s 4 4
    let (general_metadata_count, pos) ← unpackLE s pos 8
    let (tensor_metadata_count, pos) ← unpackLE s pos 8
    let (metadata, pos) ← parseGeneralMeta s general_metadata_count pos
    let pos ← skipTensorMeta s tensor_metadata_count pos
    let (num_tensors, pos) ← unpackLE s pos 8
    let (tensors, _) ← readTensorInfos s num_tensors pos
    .ok (some ⟨version, metadata, tensors, s.length, s.length⟩)

/-- One tensor's contribution to a shard, as recorded while the writer
emits it: the descriptor's packed offset field (line 313) and the bytes
`f.read` returned for it (line 317). -/
structure ShardEntry where
  tensor : TensorInfo
  offsetWritten : Nat
  data : Bytes
deriving DecidableEq, Repr

/-- One shard output file: its full byte content plus the ordered record
of the tensors written into it. -/
structure ShardFile where
  bytes : Bytes
  entries : List ShardEntry
deriving DecidableEq, Repr

/-- One tensor descriptor exactly as the shard writer packs it
(lines 306–313): name length, name, rank, dims, type tag, offset field. -/
def descBytes (t : TensorInfo) (off : Nat) : Bytes :=
  packLE 8 t.name.length ++ t.name ++ packLE 4 t.dims.length
    ++ (t.dims.map (packLE 8)).flatten ++ packLE 4 t.type ++ packLE 8 off

/-- Inner per-shard loop (lines 299–321): for `count` iterations, break if
the global `tensor_idx` has exhausted the catalog, otherwise write the
descriptor (with the running `shard_data_offset`), then immediately the
tensor's bytes read from the source at its original offset, advancing the
running offset by the byte count actually read.  Returns the bytes
written, the entries, and the new `tensor_idx` and `shard_data_offset`. -/
def writeShardLoop (src : Bytes) (tensors : List TensorInfo) :
    Nat → Nat → Nat → Bytes × List ShardEntry × Nat × Nat
  | 0, tensor_idx, off => ([], [], tensor_idx, off)
  | count + 1, tensor_idx, off =>
    if h : tensor_idx < tensors.length then
      let t := tensors.get ⟨tensor_idx, h⟩
      let tensor_data := readBytes src t.offset t.size
      let rest := writeShardLoop src tensors count (tensor_idx + 1) (off + tensor_data.length)
      (descBytes t off ++ tensor_data ++ rest.1, ⟨t, off, tensor_data⟩ :: rest.2.1,
        rest.2.2.1, rest.2.2.2)
    else ([], [], tensor_idx, off)

/-- Outer loop over `shard_num in range(num_shards)` (lines 277–324), by
the number of shards still to create.  Every iteration emits a file: the
header is magic, version, a single `u64` zero for the metadata count, and
the planned tensor count (lines 283–295); then the interleaved
descriptor/data body.  `shard_data_offset` restarts at `data_start` for
every shard (line 298), while `tensor_idx` carries across shards. -/
def writeShards (src : Bytes) (tensors : List TensorInfo)
    (version data_start tensors_per_shard remainder : Nat) :
    Nat → Nat → Nat → List ShardFile
  | 0, _, _ => []
  | k + 1, shard_num, tensor_idx =>
    let shard_tensor_count := tensors_per_shard + (if shard_num < remainder then 1 else 0)
    let out := writeShardLoop src tensors shard_tensor_count tensor_idx data_start
    ⟨GGUF_MAGIC ++ packLE 4 version ++ packLE 8 0 ++ packLE 8 shard_tensor_count ++ out.1,
      out.2.1⟩
      :: writeShards src tensors version data_start tensors_per_shard remainder
          k (shard_num + 1) out.2.2.1

/-- Externally visible side effects, in program order. -/
inductive Event where
  /-- `os.makedirs(output_dir, exist_ok=True)`, line 141. -/
  | mkdir
  /-- the first read of the source file (the magic bytes), line 145. -/
  | srcRead
deriving DecidableEq, Repr

/-- Result of one `split_gguf` run: its effect trace and either a Python
exception, or the returned flag together with the shard files written. -/
structure SplitOut where
  events : List Event
  result : Except PyErr (Bool × List ShardFile)

/-- `split_gguf` (lines 133–327): create the output directory, parse the
source, then plan `total // n` tensors per shard with the first
`total % n` shards receiving one extra, and write the shard files.
`.ok (false, [])` is the early `return False` on a magic mismatch;
dividing by a zero shard count raises only after parsing, as in the
source (line 269). -/
def split_gguf (s : Bytes) (num_shards : Nat) : SplitOut :=
  { events := [Event.mkdir, Event.srcRead]
    result :=
      match containerRead s with
      | .error e => .error e
      | .ok none => .ok (false, [])
      | .ok (some r) =>
        if num_shards = 0 then .error .zeroDivision
        else
          let tensors_per_shard := r.tensors.length / num_shards
          let remainder := r.tensors.length % num_shards
          .ok (true, writeShards s r.tensors r.version r.data_start
                tensors_per_shard remainder num_shards 0 0) }

/-- Module-level `read_metadata` (lines 32–90).  It is dead code in the
source — `split_gguf` inlines its own copy — but it is the other site the
unknown-tag claims cite.  Its differences: a 10000-entry bound, an unknown
top-level tag consumes nothing at all (plain `continue`, lines 84–86), and
an unknown array element tag executes `f.read(4 * array_len)` once per
element (line 83). -/
def readArrayElemsMeta (s : Bytes) (array_type array_len : Nat) : Nat → Nat → Except PyErr (List MetaVal × Nat)
  | 0, pos => .ok ([], pos)
  | n + 1, pos => do
    if array_type = 8 then
      let (v, pos) ← read_string s pos
      let (rest, pos) ← readArrayElemsMeta s array_type array_len n pos
      .ok (.str v :: rest, pos)
    else if array_type = 4 then
      let (v, pos) ← unpackLE s pos 4
      let (rest, pos) ← readArrayElemsMeta s array_type array_len n pos
      .ok (.u32 v :: rest, pos)
    else if array_type = 5 then
      let (v, pos) ← unpackLE s pos 4
      let (rest, pos) ← readArrayElemsMeta s array_type array_len n pos
      .ok (.i32 v :: rest, pos)
    else if array_type = 6 then
      let (v, pos) ← unpackLE s pos 4
      let (rest, pos) ← readArrayElemsMeta s array_type array_len n pos
      .ok (.f32 v :: rest, pos)
    else
      readArrayElemsMeta s array_type array_len n
        (pos + (readBytes s pos (4 * array_len)).length)

/-- One metadata value as decoded by module-level `read_metadata`
(lines 47–86): same scalar branches as the inline copy, but the unknown
top-level branch is a bare `continue` consuming nothing. -/
def parseValueMeta (s : Bytes) (pos : Nat) (value_type : Nat) : Except PyErr (Option MetaVal × Nat) := do
  if value_type = 8 then
    let (v, pos) ← read_string s pos
    .ok (some (.str v), pos)
  else if value_type = 0 then
    let (v, pos) ← unpackLE s pos 1
    .ok (some (.u8 v), pos)
  else if value_type = 1 then
    let (v, pos) ← unpackLE s pos 1
    .ok (some (.i8 v), pos)
  else if value_type = 2 then
    let (v, pos) ← unpackLE s pos 2
    .ok (some (.u16 v), pos)
  else if value_type = 3 then
    let (v, pos) ← unpackLE s pos 2
    .ok (some (.i16 v), pos)
  else if value_type = 4 then
    let (v, pos) ← unpackLE s pos 4
    .ok (some (.u32 v), pos)
  else if value_type = 5 then
    let (v, pos) ← unpackLE s pos 4
    .ok (some (.i32 v), pos)
  else if value_type = 6 then
    let (v, pos) ← unpackLE s pos 4
    .ok (some (.f32 v), pos)
  else if value_type = 7 then
    let (v, pos) ← unpackLE s pos 1
    .ok (some (.boolv v), pos)
  else if value_type = 9 then
    let (array_type, pos) ← unpackLE s pos 4
    let (array_len, pos) ← unpackLE s pos 8
    if 1000000 < array_len then .error .arrayTooLarge
    else
      let (elems, pos) ← readArrayElemsMeta s array_type array_len array_len pos
      .ok (some (.arr array_type elems), pos)
  else
    .ok (none, pos)

/-- Entry loop of `read_metadata` (lines 43–88). -/
def readMetadataEntries (s : Bytes) : Nat → Nat → Except PyErr (List (Bytes × MetaVal) × Nat)
  | 0, pos => .ok ([], pos)
  | n + 1, pos => do
    let (key, pos) ← read_string s pos
    let (value_type, pos) ← unpackLE s pos 4
    let (v, pos) ← parseValueMeta s pos value_type
    let (rest, pos) ← readMetadataEntries s n pos
    match v with
    | some value => .ok ((key, value) :: rest, pos)
    | none => .ok (rest, pos)

/-- `read_metadata` (lines 32–90): entry count with its 10000 bound, then
the entries. -/
def read_metadata (s : Bytes) (pos : Nat) : Except PyErr (List (Bytes × MetaVal) × Nat) := do
  let (num_kv, pos) ← unpackLE s pos 8
  if 10000 < num_kv then .error .tooManyMeta
  else readMetadataEntries s num_kv pos

/-! Concrete inputs used by counterexamples and witnesses.  Each source
file is a well-formed GGUF v3 byte string for the reader above: magic,
version, general-metadata count, tensor-metadata count, the metadata
entries, tensor count, descriptors, then the raw tensor data. -/

/-- One tensor named `t`, dims `[2]`, type 0 (1 byte/element), data at
byte 65, as parsed from `src1`. -/
def t1 : TensorInfo := ⟨[116], [2], 0, 65, 2⟩

/-- A 67-byte source: no metadata, one 2-byte tensor `t1`. -/
def src1 : Bytes :=
  GGUF_MAGIC ++ packLE 4 3 ++ packLE 8 0 ++ packLE 8 0 ++ packLE 8 1
    ++ packLE 8 1 ++ [116] ++ packLE 4 1 ++ packLE 8 2 ++ packLE 4 0 ++ packLE 8 65
    ++ [9, 9]

/-- The single 59-byte shard `split_gguf src1 1` writes. -/
def shard1 : ShardFile :=
  ⟨GGUF_MAGIC ++ packLE 4 3 ++ packLE 8 0 ++ packLE 8 1 ++ descBytes t1 67 ++ [9, 9],
   [⟨t1, 67, [9, 9]⟩]⟩

/-- A 32-byte source with no metadata and zero tensors. -/
def src0 : Bytes :=
  GGUF_MAGIC ++ packLE 4 3 ++ packLE 8 0 ++ packLE 8 0 ++ packLE 8 0

/-- The 24-byte empty shard `split_gguf src0 1` writes. -/
def emptyShard : ShardFile :=
  ⟨GGUF_MAGIC ++ packLE 4 3 ++ packLE 8 0 ++ packLE 8 0, []⟩

/-- First tensor of `src2`: name `a`, dims `[2]`, type 0, data at byte 98. -/
def t2a : TensorInfo := ⟨[97], [2], 0, 98, 2⟩

/-- Second tensor of `src2`: name `b`, dims `[3]`, type 0, data at byte 100. -/
def t2b : TensorInfo := ⟨[98], [3], 0, 100, 3⟩

/-- A 103-byte source with two tensors of sizes 2 and 3. -/
def src2 : Bytes :=
  GGUF_MAGIC ++ packLE 4 3 ++ packLE 8 0 ++ packLE 8 0 ++ packLE 8 2
    ++ packLE 8 1 ++ [97] ++ packLE 4 1 ++ packLE 8 2 ++ packLE 4 0 ++ packLE 8 98
    ++ packLE 8 1 ++ [98] ++ packLE 4 1 ++ packLE 8 3 ++ packLE 4 0 ++ packLE 8 100
    ++ [1, 2] ++ [3, 4, 5]

/-- What `containerRead` produces on `src2`. -/
def r2 : ReadResult := ⟨3, [], [t2a, t2b], 103, 103⟩

/-- The single shard `split_gguf src2 1` writes: descriptors and data
interleaved per tensor, offset fields 103 and 105. -/
def shard2 : ShardFile :=
  ⟨GGUF_MAGIC ++ packLE 4 3 ++ packLE 8 0 ++ packLE 8 2
     ++ descBytes t2a 103 ++ [1, 2] ++ descBytes t2b 105 ++ [3, 4, 5],
   [⟨t2a, 103, [1, 2]⟩, ⟨t2b, 105, [3, 4, 5]⟩]⟩

/-- Tensor of `src5`: declared dims `[4]` (so estimated size 4) at byte 65,
but the file holds only two bytes there. -/
def t5 : TensorInfo := ⟨[116], [4], 0, 65, 4⟩

/-- A 67-byte source whose single tensor claims 4 data bytes while only 2
exist: a truncated source. -/
def src5 : Bytes :=
  GGUF_MAGIC ++ packLE 4 3 ++ packLE 8 0 ++ packLE 8 0 ++ packLE 8 1
    ++ packLE 8 1 ++ [116] ++ packLE 4 1 ++ packLE 8 4 ++ packLE 4 0 ++ packLE 8 65
    ++ [9, 9]

/-- What `containerRead` produces on `src5`. -/
def r5 : ReadResult := ⟨3, [], [t5], 67, 67⟩

/-- The shard `split_gguf src5 1` writes: the tensor's data truncated to
the two available bytes, with no error. -/
def shard5 : ShardFile :=
  ⟨GGUF_MAGIC ++ packLE 4 3 ++ packLE 8 0 ++ packLE 8 1 ++ descBytes t5 67 ++ [9, 9],
   [⟨t5, 67, [9, 9]⟩]⟩

/-- An 82-byte source with two general-metadata entries: key `k` with the
unknown type tag 42 followed by four junk bytes, and key `a` holding an
array with unknown element tag 99 and two elements of four junk bytes
each; no tensors. -/
def src6 : Bytes :=
  GGUF_MAGIC ++ packLE 4 3 ++ packLE 8 2 ++ packLE 8 0
    ++ packLE 8 1 ++ [107] ++ packLE 4 42 ++ [1, 2, 3, 4]
    ++ packLE 8 1 ++ [97] ++ packLE 4 9 ++ packLE 4 99 ++ packLE 8 2
    ++ [5, 5, 5, 5, 6, 6, 6, 6]
    ++ packLE 8 0

/-- Input for module-level `read_metadata`: one entry, key `a`, an array
with unknown element tag 99 and one element of four junk bytes. -/
def src6m : Bytes :=
  packLE 8 1 ++ packLE 8 1 ++ [97] ++ packLE 4 9 ++ packLE 4 99 ++ packLE 8 1
    ++ [7, 7, 7, 7]

/-- Input for module-level `read_metadata`: one entry, key `k`, unknown
top-level type tag 42 and nothing after it. -/
def src6m2 : Bytes :=
  packLE 8 1 ++ packLE 8 1 ++ [107] ++ packLE 4 42

/-- A 32-byte file with correct magic but version 999, no metadata, no
tensors. -/
def src7 : Bytes :=
  GGUF_MAGIC ++ packLE 4 999 ++ packLE 8 0 ++ packLE 8 0 ++ packLE 8 0

/-- An 8-byte stream whose length field declares `2 ^ 40` and which holds
no payload bytes at all. -/
def oversized8 : Bytes := [0, 0, 0, 0, 0, 1, 0, 0]

/-! Proof-side restatements of the two writer loops, over explicit catalog
slices instead of a running global index.  They are proved equal to the
loops above and used to derive the claims. -/

/-- Effect of the inner loop on an explicit tensor list: one entry per
tensor, the offset field accumulating by the length of the bytes the
source read actually returned. -/
def entriesSpec (src : Bytes) : List TensorInfo → Nat → List ShardEntry
  | [], _ => []
  | t :: ts, off =>
    ⟨t, off, readBytes src t.offset t.size⟩
      :: entriesSpec src ts (off + (readBytes src t.offset t.size).length)

/-- The byte stream a list of entries contributes to a shard file. -/
def entriesBytes (es : List ShardEntry) : Bytes :=
  (es.map (fun e => descBytes e.tensor e.offsetWritten ++ e.data)).flatten

/-- Effect of the outer loop on an explicit remaining slice of the
catalog: shard `shard_num` takes the next `tps` tensors plus one more
while `shard_num < rem`. -/
def shardsSpec (src : Bytes) (version data_start tps rem : Nat) :
    List TensorInfo → Nat → Nat → List ShardFile
  | _, 0, _ => []
  | rest, k + 1, shard_num =>
    let c := tps + (if shard_num < rem then 1 else 0)
    let es := entriesSpec src (rest.take c) data_start
    ⟨GGUF_MAGIC ++ packLE 4 version ++ packLE 8 0 ++ packLE 8 c ++ entriesBytes es, es⟩
      :: shardsSpec src version data_start tps rem (rest.drop c) k (shard_num + 1)

/-- Total tensor count planned for `k` consecutive shards starting at
shard index `s0`. -/
def cntSum (tps rem : Nat) : Nat → Nat → Nat
  | 0, _ => 0
  | k + 1, s0 => (tps + if s0 < rem then 1 else 0) + cntSum tps rem k (s0 + 1)

/-- Planned per-shard tensor counts for `k` consecutive shards starting
at shard index `s0`. -/
def countsList (tps rem : Nat) : Nat → Nat → List Nat
  | 0, _ => []
  | k + 1, s0 => (tps + if s0 < rem then 1 else 0) :: countsList tps rem k (s0 + 1)

/-! Basic facts about the byte primitives. -/

theorem packLE_length (w : Nat) : ∀ v, (packLE w v).length = w := by
  induction w with
  | zero => intro v; rfl
  | succ w ih => intro v; simp [packLE, ih]

theorem leNat_packLE (w : Nat) : ∀ v, leNat (packLE w v) = v % 2 ^ (8 * w) := by
  induction w with
  | zero => intro v; simp [packLE, leNat, Nat.mod_one]
  | succ w ih =>
    intro v
    have h : (2 : Nat) ^ (8 * (w + 1)) = 256 * 2 ^ (8 * w) := by
      rw [show 8 * (w + 1) = 8 + 8 * w from by ring, pow_add]
      norm_num
    show v % 256 + 256 * leNat (packLE w (v / 256)) = v % 2 ^ (8 * (w + 1))
    rw [ih, h, Nat.mod_mul]

theorem entriesBytes_nil : entriesBytes [] = [] := rfl

theorem entriesBytes_cons (e : ShardEntry) (es : List ShardEntry) :
    entriesBytes (e :: es) =
      descBytes e.tensor e.offsetWritten ++ e.data ++ entriesBytes es := by
  simp [entriesBytes]

/-! The inner writer loop equals its slice restatement. -/

theorem writeShardLoop_bytes (src : Bytes) (ts : List TensorInfo) :
    ∀ count tensor_idx off,
      (writeShardLoop src ts count tensor_idx off).1 =
        entriesBytes (writeShardLoop src ts count tensor_idx off).2.1 := by
  intro count
  induction count with
  | zero => intro idx off; rfl
  | succ c ih =>
    intro idx off
    by_cases h : idx < ts.length
    · simp only [writeShardLoop, dif_pos h]
      rw [entriesBytes_cons, ih]
    · simp [writeShardLoop, dif_neg h, entriesBytes_nil]

theorem writeShardLoop_entries (src : Bytes) (ts : List TensorInfo) :
    ∀ count tensor_idx off, tensor_idx ≤ ts.length →
      (writeShardLoop src ts count tensor_idx off).2.1 =
        entriesSpec src ((ts.drop tensor_idx).take count) off := by
  intro count
  induction count with
  | zero => intro idx off _; simp [writeShardLoop, entriesSpec]
  | succ c ih =>
    intro idx off hle
    by_cases h : idx < ts.length
    · rw [List.drop_eq_getElem_cons h, List.take_succ_cons]
      simp only [writeShardLoop, dif_pos h, entriesSpec, List.get_eq_getElem]
      rw [ih (idx + 1) _ h]
    · have hidx : idx = ts.length := Nat.le_antisymm hle (Nat.not_lt.mp h)
      simp [writeShardLoop, dif_neg h, hidx, List.drop_length, entriesSpec]

theorem writeShardLoop_idx (src : Bytes) (ts : List TensorInfo) :
    ∀ count tensor_idx off, tensor_idx ≤ ts.length →
      (writeShardLoop src ts count tensor_idx off).2.2.1 =
        min (tensor_idx + count) ts.length := by
  intro count
  induction count with
  | zero => intro idx off hle; simp [writeShardLoop]; omega
  | succ c ih =>
    intro idx off hle
    by_cases h : idx < ts.length
    · simp only [writeShardLoop, dif_pos h]
      rw [ih (idx + 1) _ h]
      omega
    · simp only [writeShardLoop, dif_neg h]
      omega

/-! The outer writer loop equals its slice restatement. -/

theorem drop_min_drop (ts : List TensorInfo) (idx c : Nat) :
    ts.drop (min (idx + c) ts.length) = (ts.drop idx).drop c := by
  rcases Nat.le_total (idx + c) ts.length with h | h
  · rw [Nat.min_eq_left h]
    exact (List.drop_drop c idx ts).symm
  · have h1 : ts.drop (min (idx + c) ts.length) = [] := by
      rw [Nat.min_eq_right h]
      exact List.drop_length ts
    have h2 : (ts.drop idx).drop c = [] := by
      refine List.drop_eq_nil_of_le ?_
      rw [List.length_drop]
      omega
    rw [h1, h2]

theorem writeShards_eq (src : Bytes) (ts : List TensorInfo) (version ds tps rem : Nat) :
    ∀ k shard_num tensor_idx, tensor_idx ≤ ts.length →
      writeShards src ts version ds tps rem k shard_num tensor_idx =
        shardsSpec src version ds tps rem (ts.drop tensor_idx) k shard_num := by
  intro k
  induction k with
  | zero => intro s0 idx _; rfl
  | succ k ih =>
    intro s0 idx hle
    have hb := writeShardLoop_bytes src ts (tps + if s0 < rem then 1 else 0) idx ds
    have he := writeShardLoop_entries src ts (tps + if s0 < rem then 1 else 0) idx ds hle
    have hi := writeShardLoop_idx src ts (tps + if s0 < rem then 1 else 0) idx ds hle
    simp only [writeShards, shardsSpec]
    rw [hb, he, hi, ih _ _ (Nat.min_le_right _ _), drop_min_drop]

/-! Facts about the slice restatements. -/

theorem entriesSpec_map_tensor (src : Bytes) :
    ∀ (ts : List TensorInfo) (off : Nat),
      (entriesSpec src ts off).map (fun e => e.tensor) = ts := by
  intro ts
  induction ts with
  | nil => intro off; rfl
  | cons t ts ih => intro off; simp [entriesSpec, ih]

theorem entriesSpec_length (src : Bytes) (ts : List TensorInfo) (off : Nat) :
    (entriesSpec src ts off).length = ts.length := by
  conv_rhs => rw [← entriesSpec_map_tensor src ts off]
  rw [List.length_map]

theorem entriesSpec_data (src : Bytes) :
    ∀ (ts : List TensorInfo) (off : Nat), ∀ e ∈ entriesSpec src ts off,
      e.data = readBytes src e.tensor.offset e.tensor.size := by
  intro ts
  induction ts with
  | nil => intro off e h; simp [entriesSpec] at h
  | cons t ts ih =>
    intro off e h
    rcases List.mem_cons.mp h with h1 | h1
    · subst h1; rfl
    · exact ih _ e h1

theorem shardsSpec_length (src : Bytes) (version ds tps rem : Nat) :
    ∀ k rest s0, (shardsSpec src version ds tps rem rest k s0).length = k := by
  intro k
  induction k with
  | zero => intro rest s0; rfl
  | succ k ih => intro rest s0; simp only [shardsSpec, List.length_cons, ih]

theorem shardsSpec_flatten (src : Bytes) (version ds tps rem : Nat) :
    ∀ k rest s0,
      ((shardsSpec src version ds tps rem rest k s0).map
        (fun sh => sh.entries.map (fun e => e.tensor))).flatten =
        rest.take (cntSum tps rem k s0) := by
  intro k
  induction k with
  | zero => intro rest s0; simp [shardsSpec, cntSum]
  | succ k ih =>
    intro rest s0
    simp only [shardsSpec, cntSum, List.map_cons, List.flatten_cons]
    rw [entriesSpec_map_tensor, ih]
    exact (List.take_add rest (tps + if s0 < rem then 1 else 0)
      (cntSum tps rem k (s0 + 1))).symm

theorem shardsSpec_data (src : Bytes) (version ds tps rem : Nat) :
    ∀ k rest s0, ∀ sh ∈ shardsSpec src version ds tps rem rest k s0,
      ∀ e ∈ sh.entries, e.data = readBytes src e.tensor.offset e.tensor.size := by
  intro k
  induction k with
  | zero => intro rest s0 sh h; simp [shardsSpec] at h
  | succ k ih =>
    intro rest s0 sh h
    rcases List.mem_cons.mp h with h1 | h1
    · subst h1
      intro e he
      exact entriesSpec_data src _ _ e he
    · exact ih _ _ sh h1

theorem cntSum_eq (tps rem : Nat) :
    ∀ k s0, cntSum tps rem k s0 = k * tps + (min (s0 + k) rem - min s0 rem) := by
  intro k
  induction k with
  | zero => intro s0; simp [cntSum]
  | succ k ih =>
    intro s0
    rw [cntSum, ih (s0 + 1), Nat.succ_mul]
    rcases Nat.lt_or_ge s0 rem with h | h
    · rw [if_pos h]
      generalize k * tps = K
      omega
    · rw [if_neg (Nat.not_lt.mpr h)]
      generalize k * tps = K
      omega

theorem cntSum_total (T n : Nat) (hn : n ≠ 0) :
    cntSum (T / n) (T % n) n 0 = T := by
  have hmod : T % n < n := Nat.mod_lt _ (Nat.pos_of_ne_zero hn)
  rw [cntSum_eq, Nat.zero_add, Nat.min_eq_right (Nat.le_of_lt hmod), Nat.zero_min,
    Nat.sub_zero]
  exact Nat.div_add_mod T n

theorem shardsSpec_map_count (src : Bytes) (version ds tps rem : Nat) :
    ∀ k rest s0, rest.length = cntSum tps rem k s0 →
      (shardsSpec src version ds tps rem rest k s0).map (fun sh => sh.entries.length) =
        countsList tps rem k s0 := by
  intro k
  induction k with
  | zero => intro rest s0 h; rfl
  | succ k ih =>
    intro rest s0 h
    rw [cntSum] at h
    simp only [shardsSpec, countsList, List.map_cons, List.cons.injEq]
    refine ⟨?_, ?_⟩
    · rw [entriesSpec_length, List.length_take]
      omega
    · refine ih _ _ ?_
      rw [List.length_drop]
      omega

theorem shardsSpec_bytes (src : Bytes) (version ds tps rem : Nat) :
    ∀ k rest s0, rest.length = cntSum tps rem k s0 →
      ∀ sh ∈ shardsSpec src version ds tps rem rest k s0,
        sh.bytes = GGUF_MAGIC ++ packLE 4 version ++ packLE 8 0
          ++ packLE 8 sh.entries.length
          ++ (sh.entries.map (fun e => descBytes e.tensor e.offsetWritten ++ e.data)).flatten := by
  intro k
  induction k with
  | zero => intro rest s0 h sh hm; simp [shardsSpec] at hm
  | succ k ih =>
    intro rest s0 h sh hm
    rw [cntSum] at h
    rcases List.mem_cons.mp hm with h1 | h1
    · subst h1
      have hlen : (entriesSpec src
          (rest.take (tps + if s0 < rem then 1 else 0)) ds).length =
          tps + if s0 < rem then 1 else 0 := by
        rw [entriesSpec_length, List.length_take]
        omega
      show GGUF_MAGIC ++ packLE 4 version ++ packLE 8 0
          ++ packLE 8 (tps + if s0 < rem then 1 else 0) ++ entriesBytes _ = _
      rw [hlen]
      rfl
    · refine ih _ _ ?_ sh h1
      rw [List.length_drop]
      omega

theorem countsList_eq_range (tps rem : Nat) :
    ∀ k s0, countsList tps rem k s0 =
      (List.range k).map (fun i => tps + if s0 + i < rem then 1 else 0) := by
  intro k
  induction k with
  | zero => intro s0; rfl
  | succ k ih =>
    intro s0
    rw [countsList, List.range_succ_eq_map, List.map_cons, List.map_map, ih (s0 + 1)]
    refine congrArg₂ List.cons (by simp) ?_
    refine congrArg (fun f => List.map f (List.range k)) (funext fun i => ?_)
    show tps + (if s0 + 1 + i < rem then 1 else 0)
      = tps + (if s0 + (i + 1) < rem then 1 else 0)
    have h : s0 + 1 + i = s0 + (i + 1) := by omega
    rw [h]

/-! The writer's output in closed form. -/

theorem split_result_eq (src : Bytes) (n : Nat) (r : ReadResult)
    (hn : n ≠ 0) (hr : containerRead src = .ok (some r)) :
    (split_gguf src n).result =
      .ok (true, shardsSpec src r.version r.data_start
        (r.tensors.length / n) (r.tensors.length % n) r.tensors n 0) := by
  have h0 : (split_gguf src n).result =
      .ok (true, writeShards src r.tensors r.version r.data_start
        (r.tensors.length / n) (r.tensors.length % n) n 0 0) := by
    simp [split_gguf, hr, hn]
  rw [h0, writeShards_eq src r.tensors _ _ _ _ n 0 0 (Nat.zero_le _), List.drop_zero]

/-- On a magic mismatch the reader takes the early `return False` path. -/
theorem containerRead_badMagic (s : Bytes) (h : readBytes s 0 4 ≠ GGUF_MAGIC) :
    containerRead s = .ok none := by
  simp [containerRead, h]

/-- On a magic mismatch `split_gguf` returns `False` and writes nothing. -/
theorem split_badMagic (s : Bytes) (n : Nat) (h : readBytes s 0 4 ≠ GGUF_MAGIC) :
    (split_gguf s n).result = .ok (false, []) := by
  simp [split_gguf, containerRead_badMagic s h]

/-! The ten claims. -/

/-- C1: the claim says parsing a freshly written shard with the same
Container Reader succeeds and reports the planned tensor count and list.
The code violates this: the writer emits magic, version, a single
metadata-count word and then the tensor count, while the reader expects
two metadata-count words before a (skipped) tensor-metadata section.  On
`src1` the planned single-tensor shard re-parses "successfully" but with
zero tensors (the descriptor block is consumed as tensor metadata), and
the empty shard written for `src0` does not parse at all. -/
theorem C1_roundtrip_broken :
    (split_gguf src1 1).result = .ok (true, [shard1]) ∧
    shard1.entries.length = 1 ∧
    containerRead shard1.bytes = .ok (some ⟨3, [], [], 59, 59⟩) ∧
    (split_gguf src0 1).result = .ok (true, [emptyShard]) ∧
    containerRead emptyShard.bytes = .error .structError :=
  ⟨rfl, rfl, rfl, rfl, rfl⟩

/-- C2: the claim says descriptor offsets start at 0 and are shard-local.
The code violates this: `shard_data_offset` is initialised with
`data_start`, which itself is read from `f.tell()` after `f.seek(0, 2)`
and therefore equals the SOURCE file size.  On `src2` (103 bytes, two
tensors of sizes 2 and 3) the offsets written are 103 and 105, not 0
and 2. -/
theorem C2_offsets_not_zero_based :
    (split_gguf src2 1).result = .ok (true, [shard2]) ∧
    shard2.entries.map (fun e => e.offsetWritten) = [103, 105] ∧
    src2.length = 103 ∧ (103 : Nat) ≠ 0 :=
  ⟨rfl, rfl, rfl, by decide⟩

/-- C3: for every parsed source and every shard count `n ≥ 1`, the
concatenation in shard order of the tensor sequences written to the
shards is exactly the original tensor catalog — no tensor omitted,
duplicated or reordered.  Confirmed. -/
theorem C3_concat_exact (src : Bytes) (n : Nat) (r : ReadResult)
    (hn : n ≠ 0) (hr : containerRead src = .ok (some r)) :
    ∃ shards, (split_gguf src n).result = .ok (true, shards) ∧
      (shards.map (fun sh => sh.entries.map (fun e => e.tensor))).flatten = r.tensors := by
  refine ⟨_, split_result_eq src n r hn hr, ?_⟩
  rw [shardsSpec_flatten, cntSum_total _ _ hn, List.take_length]

/-- C3 witness: the two-tensor source `src2` split into two shards. -/
theorem C3_concat_exact_witness :
    ((2 : Nat) ≠ 0 ∧ containerRead src2 = .ok (some r2)) ∧
    (∃ shards, (split_gguf src2 2).result = .ok (true, shards) ∧
      (shards.map (fun sh => sh.entries.map (fun e => e.tensor))).flatten = r2.tensors) :=
  ⟨⟨by decide, rfl⟩, C3_concat_exact src2 2 r2 (by decide) rfl⟩

/-- C4: shard `i` receives `total / n + 1` tensors if `i < total % n`,
else `total / n`, consuming the catalog strictly in order; and when
`n > total` the trailing shards are still produced (the output list has
one file per shard index).  Confirmed. -/
theorem C4_distribution (src : Bytes) (n : Nat) (r : ReadResult)
    (hn : n ≠ 0) (hr : containerRead src = .ok (some r)) :
    ∃ shards, (split_gguf src n).result = .ok (true, shards) ∧
      shards.length = n ∧
      shards.map (fun sh => sh.entries.length) =
        (List.range n).map
          (fun i => r.tensors.length / n + if i < r.tensors.length % n then 1 else 0) ∧
      (shards.map (fun sh => sh.entries.map (fun e => e.tensor))).flatten = r.tensors := by
  have hex : r.tensors.length =
      cntSum (r.tensors.length / n) (r.tensors.length % n) n 0 :=
    (cntSum_total _ _ hn).symm
  refine ⟨_, split_result_eq src n r hn hr, shardsSpec_length src _ _ _ _ n r.tensors 0,
    ?_, ?_⟩
  · rw [shardsSpec_map_count src _ _ _ _ n r.tensors 0 hex, countsList_eq_range]
    simp
  · rw [shardsSpec_flatten, ← hex, List.take_length]

/-- C4 witness: `src2` (2 tensors) split five ways — five files are
produced, with tensor counts 1, 1, 0, 0, 0. -/
theorem C4_distribution_witness :
    ((5 : Nat) ≠ 0 ∧ containerRead src2 = .ok (some r2)) ∧
    (∃ shards, (split_gguf src2 5).result = .ok (true, shards) ∧
      shards.length = 5 ∧
      shards.map (fun sh => sh.entries.length) =
        (List.range 5).map
          (fun i => r2.tensors.length / 5 + if i < r2.tensors.length % 5 then 1 else 0) ∧
      (shards.map (fun sh => sh.entries.map (fun e => e.tensor))).flatten = r2.tensors) :=
  ⟨⟨by decide, rfl⟩, C4_distribution src2 5 r2 (by decide) rfl⟩

/-- C5 counterexample: the claim says a tensor whose declared size exceeds
the bytes available at its source offset makes the writer fail with a
`SourceReadError`.  On `src5` only 2 of the declared 4 bytes exist, yet
the split succeeds and silently writes the truncated 2 bytes. -/
theorem C5_truncated_copy_no_error :
    (readBytes src5 65 4).length = 2 ∧ t5.size = 4 ∧
    (split_gguf src5 1).result = .ok (true, [shard5]) ∧
    shard5.entries.map (fun e => e.data) = [[9, 9]] :=
  ⟨by decide, rfl, rfl, rfl⟩

/-- C5 amended: the writer never raises on a short read; for every tensor
it copies exactly the bytes the source read returned — `f.read` truncated
at end of file — and the split completes. -/
theorem C5_short_read_tolerated (src : Bytes) (n : Nat) (r : ReadResult)
    (hn : n ≠ 0) (hr : containerRead src = .ok (some r)) :
    ∃ shards, (split_gguf src n).result = .ok (true, shards) ∧
      ∀ sh ∈ shards, ∀ e ∈ sh.entries,
        e.data = readBytes src e.tensor.offset e.tensor.size := by
  refine ⟨_, split_result_eq src n r hn hr, ?_⟩
  exact shardsSpec_data src _ _ _ _ n r.tensors 0

/-- C5 amended witness: the truncated source `src5`. -/
theorem C5_short_read_tolerated_witness :
    ((1 : Nat) ≠ 0 ∧ containerRead src5 = .ok (some r5)) ∧
    (∃ shards, (split_gguf src5 1).result = .ok (true, shards) ∧
      ∀ sh ∈ shards, ∀ e ∈ sh.entries,
        e.data = readBytes src5 e.tensor.offset e.tensor.size) :=
  ⟨⟨by decide, rfl⟩, C5_short_read_tolerated src5 1 r5 (by decide) rfl⟩

/-- C6: the claim says unknown top-level type tags fail with
`UnsupportedValueType` and unknown array element tags fail with
`UnsupportedArrayElementType`.  The code violates both: on `src6` the
inline decoder of `split_gguf` silently skips the tag-42 entry (guessing
four bytes) and returns an empty array for element tag 99, parsing the
whole file without error; module-level `read_metadata` likewise returns
successfully on `src6m` (unknown element tag) and `src6m2` (unknown
top-level tag, consuming no value bytes at all). -/
theorem C6_unknown_tags_skipped :
    containerRead src6 = .ok (some ⟨3, [([97], MetaVal.arr 99 [])], [], 82, 82⟩) ∧
    read_metadata src6m 0 = .ok ([([97], MetaVal.arr 99 [])], 37) ∧
    read_metadata src6m2 0 = .ok ([], 21) :=
  ⟨rfl, rfl, rfl⟩

/-- C7 counterexample: the claim says an unknown version fails with
`UnsupportedVersion`.  On `src7` — correct magic, version 999 — the
reader parses past the header and completes, reporting version 999. -/
theorem C7_unknown_version_accepted :
    containerRead src7 = .ok (some ⟨999, [], [], 32, 32⟩) ∧
    (999 : Nat) ≠ GGUF_VERSION :=
  ⟨rfl, by decide⟩

/-- C7 amended: the reader fails (returns `False`) whenever the first four
bytes differ from the magic, but the version field is only read, never
validated: for every 32-bit value `v`, a file with correct magic and
version `v` parses past the header. -/
theorem C7_magic_checked_version_not :
    (∀ (s : Bytes) (n : Nat), readBytes s 0 4 ≠ GGUF_MAGIC →
      (split_gguf s n).result = .ok (false, [])) ∧
    (∀ v : Nat, v < 4294967296 →
      containerRead (GGUF_MAGIC ++ packLE 4 v ++ packLE 8 0 ++ packLE 8 0 ++ packLE 8 0)
        = .ok (some ⟨v, [], [], 32, 32⟩)) := by
  constructor
  · intro s n h
    exact split_badMagic s n h
  · intro v hv
    have h1 : containerRead
        (GGUF_MAGIC ++ packLE 4 v ++ packLE 8 0 ++ packLE 8 0 ++ packLE 8 0)
        = .ok (some ⟨leNat (packLE 4 v), [], [], 32, 32⟩) := rfl
    have h2 : v % 2 ^ (8 * 4) = v := by
      have h3 : (2 : Nat) ^ (8 * 4) = 4294967296 := by norm_num
      rw [h3]
      exact Nat.mod_eq_of_lt hv
    rw [h1, leNat_packLE, h2]

/-- C7 witness: a wrong-magic file is rejected; version 999 is accepted. -/
theorem C7_magic_checked_version_not_witness :
    (split_gguf [0, 0, 0, 0] 1).result = .ok (false, []) ∧
    containerRead (GGUF_MAGIC ++ packLE 4 999 ++ packLE 8 0 ++ packLE 8 0 ++ packLE 8 0)
      = .ok (some ⟨999, [], [], 32, 32⟩) :=
  ⟨C7_magic_checked_version_not.1 [0, 0, 0, 0] 1 (by decide),
   C7_magic_checked_version_not.2 999 (by decide)⟩

/-- C8: whenever the eight length bytes are present and decode to more
than the configured 1 MB maximum, `read_string` fails with the
oversized-length error.  The statement holds for every stream, in
particular streams holding no payload at all, so the payload is never
read before the guard fires.  Confirmed. -/
theorem C8_oversized_guard (s : Bytes) (pos : Nat)
    (hlen : (readBytes s pos 8).length = 8)
    (hbig : 1024 * 1024 < leNat (readBytes s pos 8)) :
    read_string s pos = .error .stringTooLarge := by
  have h1 : ¬ (readBytes s pos 8).length < 8 := by omega
  simp only [read_string, if_neg h1, if_pos hbig]

/-- C8 witness: a declared length of `2 ^ 40` with no payload bytes. -/
theorem C8_oversized_guard_witness :
    (readBytes oversized8 0 8).length = 8 ∧
    leNat (readBytes oversized8 0 8) = 2 ^ 40 ∧
    read_string oversized8 0 = .error .stringTooLarge :=
  ⟨by decide, by decide, C8_oversized_guard oversized8 0 (by decide) (by decide)⟩

/-- C9 counterexample: the claim says each shard holds one contiguous
descriptor block followed by one contiguous data region.  On `src2` the
shard actually written differs from that layout: the first tensor's data
sits between the two descriptors. -/
theorem C9_layout_not_contiguous :
    (split_gguf src2 1).result = .ok (true, [shard2]) ∧
    shard2.bytes ≠ GGUF_MAGIC ++ packLE 4 3 ++ packLE 8 0 ++ packLE 8 2
      ++ (descBytes t2a 103 ++ descBytes t2b 105) ++ ([1, 2] ++ [3, 4, 5]) :=
  ⟨rfl, by decide⟩

/-- C9 amended: each shard file is the header followed by the per-tensor
interleaving descriptor–data, descriptor–data, …: each tensor's raw bytes
are written immediately after its own descriptor, not after the last
descriptor of the group. -/
theorem C9_interleaved_layout (src : Bytes) (n : Nat) (r : ReadResult)
    (hn : n ≠ 0) (hr : containerRead src = .ok (some r)) :
    ∃ shards, (split_gguf src n).result = .ok (true, shards) ∧
      ∀ sh ∈ shards, sh.bytes =
        GGUF_MAGIC ++ packLE 4 r.version ++ packLE 8 0
          ++ packLE 8 sh.entries.length
          ++ (sh.entries.map (fun e => descBytes e.tensor e.offsetWritten ++ e.data)).flatten := by
  refine ⟨_, split_result_eq src n r hn hr, ?_⟩
  exact shardsSpec_bytes src _ _ _ _ n r.tensors 0 ((cntSum_total _ _ hn).symm)

/-- C9 amended witness: the two-tensor source `src2` in one shard. -/
theorem C9_interleaved_layout_witness :
    ((1 : Nat) ≠ 0 ∧ containerRead src2 = .ok (some r2)) ∧
    (∃ shards, (split_gguf src2 1).result = .ok (true, shards) ∧
      ∀ sh ∈ shards, sh.bytes =
        GGUF_MAGIC ++ packLE 4 r2.version ++ packLE 8 0
          ++ packLE 8 sh.entries.length
          ++ (sh.entries.map (fun e => descBytes e.tensor e.offsetWritten ++ e.data)).flatten) :=
  ⟨⟨by decide, rfl⟩, C9_interleaved_layout src2 1 r2 (by decide) rfl⟩

/-- C10: the output directory is created first, before any byte of the
source is read, and even a run that stops at the magic check (returning
`False`) has already performed the directory creation.  Confirmed: the
effect trace of every run starts with `mkdir`, before the source read. -/
theorem C10_mkdir_before_read (s : Bytes) (n : Nat) :
    (split_gguf s n).events = [Event.mkdir, Event.srcRead] ∧
    (split_gguf s n).events.head? = some Event.mkdir ∧
    (readBytes s 0 4 ≠ GGUF_MAGIC → (split_gguf s n).result = .ok (false, [])) :=
  ⟨rfl, rfl, fun h => split_badMagic s n h⟩

/-- C10 witness: a four-zero-byte file fails the magic check, yet its
trace begins with the directory creation. -/
theorem C10_mkdir_before_read_witness :
    (split_gguf [0, 0, 0, 0] 2).events = [Event.mkdir, Event.srcRead] ∧
    (split_gguf [0, 0, 0, 0] 2).events.head? = some Event.mkdir ∧
    (split_gguf [0, 0, 0, 0] 2).result = .ok (false, []) :=
  ⟨(C10_mkdir_before_read [0, 0, 0, 0] 2).1,
   (C10_mkdir_before_read [0, 0, 0, 0] 2).2.1,
   (C10_mkdir_before_read [0, 0, 0, 0] 2).2.2 (by decide)⟩

end SplitGguf
